import Mathlib

/-!
Verification of the clock widget (src/main.rs).

The repository is a druid GUI clock.  Its logic splits into:
* `Time` and the four wrap-around mutators `increase_hours`,
  `decrease_hours`, `increase_minutes`, `decrease_minutes`
  (src/main.rs lines 104-136);
* the text-box input validation `validate_partial_input` / `value`
  (src/main.rs lines 50-71) used by `HoursFormatter` / `MinutesFormatter`;
* the clock-face painting closure inside `ui_builder`
  (src/main.rs lines 239-363), which maps the time to hand angles and
  draws ticks, segments, numerals and hands.

Rust `u8` fields are embedded as `Nat`; the mutators only ever assign
values in `0..=59`, and separate `*_checked` variants make the u8
overflow/underflow behaviour of the unguarded `+ 1` / `- 1` branches
explicit.  The `f64` geometry is embedded over `ℝ`.
-/

namespace Clock

/-- The `Time` struct: `hours: u8`, `minutes: u8` (src/main.rs lines 19-23). -/
structure Time where
  hours : Nat
  minutes : Nat
deriving Repr, DecidableEq

/-- The invariant stated by the spec: 0 ≤ hours ≤ 23 and 0 ≤ minutes ≤ 59. -/
def Legal (t : Time) : Prop := t.hours ≤ 23 ∧ t.minutes ≤ 59

instance (t : Time) : Decidable (Legal t) := by unfold Legal; infer_instance

/-- `decrease_hours` (src/main.rs lines 104-110):
`if hours == 0 { hours = 23 } else { hours -= 1 }`. -/
def decrease_hours (t : Time) : Time :=
  if t.hours = 0 then { t with hours := 23 } else { t with hours := t.hours - 1 }

/-- `increase_hours` (src/main.rs lines 112-118):
`if hours == 23 { hours = 0 } else { hours += 1 }`. -/
def increase_hours (t : Time) : Time :=
  if t.hours = 23 then { t with hours := 0 } else { t with hours := t.hours + 1 }

/-- `decrease_minutes` (src/main.rs lines 120-127):
`if minutes == 0 { minutes = 59; decrease_hours(data) } else { minutes -= 1 }`. -/
def decrease_minutes (t : Time) : Time :=
  if t.minutes = 0 then decrease_hours { t with minutes := 59 }
  else { t with minutes := t.minutes - 1 }

/-- `increase_minutes` (src/main.rs lines 129-136):
`if minutes == 59 { minutes = 0; increase_hours(data) } else { minutes += 1 }`. -/
def increase_minutes (t : Time) : Time :=
  if t.minutes = 59 then increase_hours { t with minutes := 0 }
  else { t with minutes := t.minutes + 1 }

/-- The set of the 24×60 legal states. -/
def LegalSet : Set Time := {t | Legal t}

/-- Checked u8 addition: `some` exactly when the sum fits in a u8. -/
def u8_checked_add (a b : Nat) : Option Nat :=
  if a + b ≤ 255 then some (a + b) else none

/-- Checked u8 subtraction: `some` exactly when no underflow occurs. -/
def u8_checked_sub (a b : Nat) : Option Nat :=
  if b ≤ a then some (a - b) else none

/-- `increase_hours` with its unguarded `hours += 1` branch replaced by
checked u8 addition: `none` marks a u8 overflow panic. -/
def increase_hours_checked (t : Time) : Option Time :=
  if t.hours = 23 then some { t with hours := 0 }
  else (u8_checked_add t.hours 1).map fun h => { t with hours := h }

/-- `decrease_hours` with its unguarded `hours -= 1` branch replaced by
checked u8 subtraction: `none` marks a u8 underflow panic. -/
def decrease_hours_checked (t : Time) : Option Time :=
  if t.hours = 0 then some { t with hours := 23 }
  else (u8_checked_sub t.hours 1).map fun h => { t with hours := h }

/-- `decrease_minutes` with every unguarded `-= 1` replaced by checked
u8 subtraction. -/
def decrease_minutes_checked (t : Time) : Option Time :=
  if t.minutes = 0 then decrease_hours_checked { t with minutes := 59 }
  else (u8_checked_sub t.minutes 1).map fun m => { t with minutes := m }

/-- `increase_minutes` with every unguarded `+= 1` replaced by checked
u8 addition. -/
def increase_minutes_checked (t : Time) : Option Time :=
  if t.minutes = 59 then increase_hours_checked { t with minutes := 0 }
  else (u8_checked_add t.minutes 1).map fun m => { t with minutes := m }

/-- druid's `Validation` outcome, as far as the repository observes it:
either `Validation::success()` or `Validation::failure(err)` carrying the
error's display string. -/
inductive Validation where
  | success : Validation
  | failure : String → Validation
deriving Repr, DecidableEq

/-- The fixed message of every `InputValidationError` the program builds
(src/main.rs lines 57 and 68). -/
def inputValidationMessage : String := "Input must be a number between 0 and 24."

/-- Numeric value of a list of ASCII digits, most significant first. -/
def digitsVal (ds : List Char) : Nat :=
  ds.foldl (fun acc c => acc * 10 + (c.toNat - Char.toNat '0')) 0

/-- Rust's `u8::from_str` (the standard library parse the repository calls):
an optional leading `+` followed by at least one ASCII decimal digit, with
values above `u8::MAX = 255` rejected; a leading `-` or any non-digit
character is rejected.  `none` stands for `Err(ParseIntError)`.
(The Rust implementation checks overflow digit by digit; since the
accumulated value only grows, that is equivalent to the final bound check
here.) -/
def u8FromStr (s : String) : Option Nat :=
  let ds := match s.data with
    | '+' :: rest => rest
    | cs => cs
  if ds.isEmpty then none
  else if ds.all Char.isDigit then
    if digitsVal ds ≤ 255 then some (digitsVal ds) else none
  else none

/-- `validate_partial_input` (src/main.rs lines 50-60): empty input is a
success; otherwise success exactly for a parsed `u8` that is `<= upper_limit`,
and every other case is a failure carrying the fixed message. -/
def validate_partial_input (input : String) (upper_limit : Nat) : Validation :=
  if input.isEmpty then Validation.success
  else
    match u8FromStr input with
    | some num =>
        if num ≤ upper_limit then Validation.success
        else Validation.failure inputValidationMessage
    | none => Validation.failure inputValidationMessage

/-- `HoursFormatter::validate_partial_input` (src/main.rs lines 81-83):
calls `validate_partial_input` with upper limit 24. -/
def hoursFormatterValidate (input : String) : Validation :=
  validate_partial_input input 24

/-- `MinutesFormatter::validate_partial_input` (src/main.rs lines 95-97):
calls `validate_partial_input` with upper limit 60. -/
def minutesFormatterValidate (input : String) : Validation :=
  validate_partial_input input 60

/-- `value` (src/main.rs lines 62-71): the final parse of a committed
string; empty input yields 0, otherwise the `u8` parse, with a parse
error mapped to the fixed message. -/
def value (input : String) : Except String Nat :=
  if input.isEmpty then Except.ok 0
  else
    match u8FromStr input with
    | some n => Except.ok n
    | none => Except.error inputValidationMessage

/-- Modelled from the spec: the commit step of druid's `ValueTextBox`
(toolkit code, not under src/) stores the parsed value in the bound field
on success and leaves the stored state unchanged on a parse error. -/
def commitValue (s : String) (cur : Nat) : Nat :=
  match value s with
  | Except.ok n => n
  | Except.error _ => cur

/-- `WINDOW_SIZE` (src/main.rs line 17): `const WINDOW_SIZE: f64 = 1400.;`.
The painter's `f64` arithmetic is embedded over `ℝ`. -/
noncomputable def WINDOW_SIZE : ℝ := 1400

/-- The white face circle the painter fills first (src/main.rs lines
240-243): center at half the canvas extents (`ctx.size()`, line 241),
radius the smaller half-extent.  The canvas-derived `center` is read
here and reused as the colored segments' center (line 263); all other
geometry below is computed from the `WINDOW_SIZE` constant. -/
noncomputable def faceCircle (cw ch : ℝ) : (ℝ × ℝ) × ℝ :=
  ((cw / 2, ch / 2), min (cw / 2) (ch / 2))

/-- The colored `CircleSegment` for segment `n` (src/main.rs lines
262-271): centered at the canvas-derived `center` of line 241, with the
two radii `ws/4 - ws/40*2` and `ws/4 - ws/100` (the painter passes
`ws = WINDOW_SIZE`) and angles `2π/12·n` (start) and `2π/12` (sweep);
the time is not read.  Fields: (center, radii, angles). -/
noncomputable def circleSegment (ws cw ch : ℝ) (_t : Time) (n : ℕ) :
    (ℝ × ℝ) × (ℝ × ℝ) × (ℝ × ℝ) :=
  ((cw / 2, ch / 2),
   (ws / 4 - ws / 40 * 2, ws / 4 - ws / 100),
   (2 * Real.pi / 12 * n, 2 * Real.pi / 12))

/-- Endpoints of hour tick `n` (src/main.rs lines 273-290): a radial
stroke between radii `ws/4 - ws/40*2` and `ws/4 - ws/100` about
`(ws/4, ws/4)`, at angle `n/12 * 2π`.  The painter passes
`ws = WINDOW_SIZE`; the canvas size and the time are not read (the unused
parameters record what the closure receives). -/
noncomputable def majorTick (ws _cw _ch : ℝ) (_t : Time) (n : ℕ) : (ℝ × ℝ) × (ℝ × ℝ) :=
  ((Real.cos ((n : ℝ) / 12 * 2 * Real.pi) * (ws / 4 - ws / 40 * 2) + ws / 4,
    Real.sin ((n : ℝ) / 12 * 2 * Real.pi) * (ws / 4 - ws / 40 * 2) + ws / 4),
   (Real.cos ((n : ℝ) / 12 * 2 * Real.pi) * (ws / 4 - ws / 100) + ws / 4,
    Real.sin ((n : ℝ) / 12 * 2 * Real.pi) * (ws / 4 - ws / 100) + ws / 4))

/-- Endpoints of minute tick `n` (src/main.rs lines 291-308): between
radii `ws/4 - ws/40` and `ws/4 - ws/100` at angle `n/60 * 2π`. -/
noncomputable def minorTick (ws _cw _ch : ℝ) (_t : Time) (n : ℕ) : (ℝ × ℝ) × (ℝ × ℝ) :=
  ((Real.cos ((n : ℝ) / 60 * 2 * Real.pi) * (ws / 4 - ws / 40) + ws / 4,
    Real.sin ((n : ℝ) / 60 * 2 * Real.pi) * (ws / 4 - ws / 40) + ws / 4),
   (Real.cos ((n : ℝ) / 60 * 2 * Real.pi) * (ws / 4 - ws / 100) + ws / 4,
    Real.sin ((n : ℝ) / 60 * 2 * Real.pi) * (ws / 4 - ws / 100) + ws / 4))

/-- The cos/sin argument of the minute hand
(src/main.rs lines 310-311): `minutes / 60 * 2π - π/2`. -/
noncomputable def minuteHandArg (t : Time) : ℝ :=
  (t.minutes : ℝ) / 60 * 2 * Real.pi - Real.pi / 2

/-- The minute hand's unit direction `(cos, sin)` in the painter's
y-down screen frame (src/main.rs lines 310-311). -/
noncomputable def minuteHandDir (t : Time) : ℝ × ℝ :=
  (Real.cos (minuteHandArg t), Real.sin (minuteHandArg t))

/-- The cos/sin argument of the hour hand (src/main.rs lines 313-318):
`((hours % 12) + minutes / 60) / 12 * 2π - π/2`; the `f64` remainder on a
nonnegative integral value is the integer `mod`. -/
noncomputable def hourHandArg (t : Time) : ℝ :=
  (((t.hours % 12 : ℕ) : ℝ) + (t.minutes : ℝ) / 60) / 12 * 2 * Real.pi - Real.pi / 2

/-- The hour hand's unit direction `(cos, sin)` in the painter's
y-down screen frame (src/main.rs lines 313-318). -/
noncomputable def hourHandDir (t : Time) : ℝ × ℝ :=
  (Real.cos (hourHandArg t), Real.sin (hourHandArg t))

/-- The minute hand stroke (src/main.rs lines 341-351): from
`(ws/4, ws/4)` to the minute direction times `ws/40 * 6.5`, offset by
`ws/4`; the painter passes `ws = WINDOW_SIZE`. -/
noncomputable def minuteHand (ws _cw _ch : ℝ) (t : Time) : (ℝ × ℝ) × (ℝ × ℝ) :=
  ((ws / 4, ws / 4),
   ((minuteHandDir t).1 * (ws / 40 * 6.5) + ws / 4,
    (minuteHandDir t).2 * (ws / 40 * 6.5) + ws / 4))

/-- The hour hand stroke (src/main.rs lines 352-362): length
`ws/40 * 3.25`. -/
noncomputable def hourHand (ws _cw _ch : ℝ) (t : Time) : (ℝ × ℝ) × (ℝ × ℝ) :=
  ((ws / 4, ws / 4),
   ((hourHandDir t).1 * (ws / 40 * 3.25) + ws / 4,
    (hourHandDir t).2 * (ws / 40 * 3.25) + ws / 4))

/-- The ring point on which numeral `n+1` is centered
(src/main.rs lines 331-336): radius `ws/40 * 7.25` about `(ws/4, ws/4)`
at angle `n/12 * 2π - π/2 + π/6` (the drawn text corner additionally
subtracts half the toolkit-computed text extent, which is outside the
repository). -/
noncomputable def labelRingPoint (ws _cw _ch : ℝ) (n : ℕ) : ℝ × ℝ :=
  (Real.cos ((n : ℝ) / 12 * 2 * Real.pi - Real.pi / 2 + 1 / 6 * Real.pi) * (ws / 40 * 7.25)
     + ws / 4,
   Real.sin ((n : ℝ) / 12 * 2 * Real.pi - Real.pi / 2 + 1 / 6 * Real.pi) * (ws / 40 * 7.25)
     + ws / 4)

/-- Stated from the spec, for comparison with the code: the minute hand
angle in radians, clockwise from 12 o'clock: `minutes / 60 * 2π`. -/
noncomputable def minuteHandAngleSpec (t : Time) : ℝ :=
  (t.minutes : ℝ) / 60 * (2 * Real.pi)

/-- Stated from the spec, for comparison with the code: the hour hand
angle in radians, clockwise from 12 o'clock:
`((hours mod 12) + minutes/60) / 12 * 2π`. -/
noncomputable def hourHandAngleSpec (t : Time) : ℝ :=
  (((t.hours % 12 : ℕ) : ℝ) + (t.minutes : ℝ) / 60) / 12 * (2 * Real.pi)

/-- The unit direction, in the painter's y-down screen frame, of a ray at
clockwise angle `θ` from 12 o'clock: `(sin θ, -cos θ)` (at `θ = 0` it
points up; at `θ = π/2` it points right, toward 3 o'clock). -/
noncomputable def clockwiseFrom12Dir (θ : ℝ) : ℝ × ℝ :=
  (Real.sin θ, -Real.cos θ)

/-- Pointwise scaling of a planar point by a factor `k`. -/
def scale2 (k : ℝ) (p : ℝ × ℝ) : ℝ × ℝ := (k * p.1, k * p.2)

lemma Time.ext_iff' (a b : Time) : a = b ↔ a.hours = b.hours ∧ a.minutes = b.minutes := by
  constructor
  · intro h; subst h; exact ⟨rfl, rfl⟩
  · rintro ⟨h1, h2⟩; cases a; cases b; simp_all

lemma hours_mk (h m : Nat) : (Time.mk h m).hours = h := rfl

lemma minutes_mk (h m : Nat) : (Time.mk h m).minutes = m := rfl

lemma increase_hours_eq (t : Time) (h : t.hours ≤ 23) :
    increase_hours t = ⟨(t.hours + 1) % 24, t.minutes⟩ := by
  unfold increase_hours
  rw [Time.ext_iff']
  split <;> simp_all <;> omega

lemma decrease_hours_eq (t : Time) (h : t.hours ≤ 23) :
    decrease_hours t = ⟨(t.hours + 23) % 24, t.minutes⟩ := by
  unfold decrease_hours
  rw [Time.ext_iff']
  split <;> simp_all <;> omega

lemma increase_minutes_eq (t : Time) (hh : t.hours ≤ 23) (hm : t.minutes ≤ 59) :
    increase_minutes t =
      ⟨if t.minutes = 59 then (t.hours + 1) % 24 else t.hours, (t.minutes + 1) % 60⟩ := by
  unfold increase_minutes
  split
  · rw [increase_hours_eq _ (by simpa using hh)]
    rw [Time.ext_iff']
    simp_all
  · rw [Time.ext_iff']
    simp_all
    omega

lemma decrease_minutes_eq (t : Time) (hh : t.hours ≤ 23) (hm : t.minutes ≤ 59) :
    decrease_minutes t =
      ⟨if t.minutes = 0 then (t.hours + 23) % 24 else t.hours, (t.minutes + 59) % 60⟩ := by
  unfold decrease_minutes
  split
  · rw [decrease_hours_eq _ (by simpa using hh)]
    rw [Time.ext_iff']
    simp_all
  · rw [Time.ext_iff']
    simp_all
    omega

lemma legal_increase_hours (t : Time) (h : Legal t) : Legal (increase_hours t) := by
  obtain ⟨hh, hm⟩ := h
  rw [increase_hours_eq t hh]
  unfold Legal
  simp only [hours_mk, minutes_mk, and_true]
  omega

lemma legal_decrease_hours (t : Time) (h : Legal t) : Legal (decrease_hours t) := by
  obtain ⟨hh, hm⟩ := h
  rw [decrease_hours_eq t hh]
  unfold Legal
  simp only [hours_mk, minutes_mk, and_true]
  omega

lemma legal_increase_minutes (t : Time) (h : Legal t) : Legal (increase_minutes t) := by
  obtain ⟨hh, hm⟩ := h
  rw [increase_minutes_eq t hh hm]
  unfold Legal
  simp only [hours_mk, minutes_mk, and_true]
  split_ifs <;> omega

lemma legal_decrease_minutes (t : Time) (h : Legal t) : Legal (decrease_minutes t) := by
  obtain ⟨hh, hm⟩ := h
  rw [decrease_minutes_eq t hh hm]
  unfold Legal
  simp only [hours_mk, minutes_mk, and_true]
  split_ifs <;> omega

lemma decrease_increase_hours (t : Time) (h : Legal t) :
    decrease_hours (increase_hours t) = t := by
  obtain ⟨hh, hm⟩ := h
  have h2 := (legal_increase_hours t ⟨hh, hm⟩).1
  rw [increase_hours_eq t hh] at h2 ⊢
  rw [decrease_hours_eq _ h2, Time.ext_iff']
  simp only [hours_mk, minutes_mk, and_true]
  omega

lemma increase_decrease_hours (t : Time) (h : Legal t) :
    increase_hours (decrease_hours t) = t := by
  obtain ⟨hh, hm⟩ := h
  have h2 := (legal_decrease_hours t ⟨hh, hm⟩).1
  rw [decrease_hours_eq t hh] at h2 ⊢
  rw [increase_hours_eq _ h2, Time.ext_iff']
  simp only [hours_mk, minutes_mk, and_true]
  omega

lemma decrease_increase_minutes (t : Time) (h : Legal t) :
    decrease_minutes (increase_minutes t) = t := by
  obtain ⟨hh, hm⟩ := h
  have h2 := legal_increase_minutes t ⟨hh, hm⟩
  rw [increase_minutes_eq t hh hm] at h2 ⊢
  rw [decrease_minutes_eq _ h2.1 h2.2, Time.ext_iff']
  simp only [hours_mk, minutes_mk, and_true]
  split_ifs <;> omega

lemma increase_decrease_minutes (t : Time) (h : Legal t) :
    increase_minutes (decrease_minutes t) = t := by
  obtain ⟨hh, hm⟩ := h
  have h2 := legal_decrease_minutes t ⟨hh, hm⟩
  rw [decrease_minutes_eq t hh hm] at h2 ⊢
  rw [increase_minutes_eq _ h2.1 h2.2, Time.ext_iff']
  simp only [hours_mk, minutes_mk, and_true]
  split_ifs <;> omega

lemma mapsTo_increase_hours : Set.MapsTo increase_hours LegalSet LegalSet :=
  fun t ht => legal_increase_hours t ht

lemma mapsTo_decrease_hours : Set.MapsTo decrease_hours LegalSet LegalSet :=
  fun t ht => legal_decrease_hours t ht

lemma mapsTo_increase_minutes : Set.MapsTo increase_minutes LegalSet LegalSet :=
  fun t ht => legal_increase_minutes t ht

lemma mapsTo_decrease_minutes : Set.MapsTo decrease_minutes LegalSet LegalSet :=
  fun t ht => legal_decrease_minutes t ht

lemma bijOn_increase_hours : Set.BijOn increase_hours LegalSet LegalSet := by
  refine Set.InvOn.bijOn ⟨fun t ht => ?_, fun t ht => ?_⟩
    mapsTo_increase_hours mapsTo_decrease_hours
  · exact decrease_increase_hours t ht
  · exact increase_decrease_hours t ht

lemma bijOn_decrease_hours : Set.BijOn decrease_hours LegalSet LegalSet := by
  refine Set.InvOn.bijOn ⟨fun t ht => ?_, fun t ht => ?_⟩
    mapsTo_decrease_hours mapsTo_increase_hours
  · exact increase_decrease_hours t ht
  · exact decrease_increase_hours t ht

lemma bijOn_increase_minutes : Set.BijOn increase_minutes LegalSet LegalSet := by
  refine Set.InvOn.bijOn ⟨fun t ht => ?_, fun t ht => ?_⟩
    mapsTo_increase_minutes mapsTo_decrease_minutes
  · exact decrease_increase_minutes t ht
  · exact increase_decrease_minutes t ht

lemma bijOn_decrease_minutes : Set.BijOn decrease_minutes LegalSet LegalSet := by
  refine Set.InvOn.bijOn ⟨fun t ht => ?_, fun t ht => ?_⟩
    mapsTo_decrease_minutes mapsTo_increase_minutes
  · exact increase_decrease_minutes t ht
  · exact decrease_increase_minutes t ht

lemma majorTick_zero (ws cw ch : ℝ) (t : Time) :
    majorTick ws cw ch t 0 =
      ((ws / 4 - ws / 40 * 2 + ws / 4, ws / 4),
       (ws / 4 - ws / 100 + ws / 4, ws / 4)) := by
  unfold majorTick
  norm_num

end Clock

/-- C1: for every legal `Time`, `increase_minutes` sets minutes to
`(minutes + 1) mod 60` and increments hours mod 24 exactly when the minutes
wrap to 0; `decrease_minutes` sets minutes to `(minutes - 1 + 60) mod 60`
(written `(minutes + 59) mod 60` over `Nat`) and decrements hours mod 24
(written `(hours + 23) mod 24`) exactly when minutes was 0 before. -/
theorem Clock.c1_minute_ops_mod_arith (t : Clock.Time)
    (h : Clock.Legal t) :
    (Clock.increase_minutes t).minutes = (t.minutes + 1) % 60 ∧
    (Clock.increase_minutes t).hours =
      (if (t.minutes + 1) % 60 = 0 then (t.hours + 1) % 24 else t.hours) ∧
    (Clock.decrease_minutes t).minutes = (t.minutes + 59) % 60 ∧
    (Clock.decrease_minutes t).hours =
      (if t.minutes = 0 then (t.hours + 23) % 24 else t.hours) := by
  obtain ⟨hh, hm⟩ := h
  rw [Clock.increase_minutes_eq t hh hm, Clock.decrease_minutes_eq t hh hm]
  refine ⟨rfl, ?_, rfl, rfl⟩
  have : (t.minutes + 1) % 60 = 0 ↔ t.minutes = 59 := by omega
  simp only [this]

/-- Witness for C1 at the spec's concrete examples:
Time(12,59) → increase_minutes → Time(13,0) and
Time(12,0) → decrease_minutes → Time(11,59). -/
theorem Clock.c1_minute_ops_mod_arith_witness :
    (Clock.increase_minutes ⟨12, 59⟩).minutes = (59 + 1) % 60 ∧
    (Clock.increase_minutes ⟨12, 59⟩).hours =
      (if (59 + 1) % 60 = 0 then (12 + 1) % 24 else 12) ∧
    (Clock.decrease_minutes ⟨12, 0⟩).minutes = (0 + 59) % 60 ∧
    (Clock.decrease_minutes ⟨12, 0⟩).hours =
      (if (0 : Nat) = 0 then (12 + 23) % 24 else 12) := by
  refine ⟨(Clock.c1_minute_ops_mod_arith ⟨12, 59⟩ (by decide)).1, ?_, ?_, ?_⟩
  · exact (Clock.c1_minute_ops_mod_arith ⟨12, 59⟩ (by decide)).2.1
  · exact (Clock.c1_minute_ops_mod_arith ⟨12, 0⟩ (by decide)).2.2.1
  · exact (Clock.c1_minute_ops_mod_arith ⟨12, 0⟩ (by decide)).2.2.2

/-- C2: for every `Time` with hours ≤ 23, `increase_hours` sets hours to
`(hours + 1) mod 24` and `decrease_hours` sets hours to
`(hours - 1 + 24) mod 24` (written `(hours + 23) mod 24` over `Nat`);
in particular 23 maps to 0 and 0 maps to 23. -/
theorem Clock.c2_hour_ops_mod_arith (t : Clock.Time) (h : t.hours ≤ 23) :
    (Clock.increase_hours t).hours = (t.hours + 1) % 24 ∧
    (Clock.decrease_hours t).hours = (t.hours + 23) % 24 := by
  rw [Clock.increase_hours_eq t h, Clock.decrease_hours_eq t h]
  exact ⟨rfl, rfl⟩

/-- Witness for C2 at the boundary: hours 23 increments to 0,
hours 0 decrements to 23. -/
theorem Clock.c2_hour_ops_mod_arith_witness :
    (Clock.increase_hours ⟨23, 0⟩).hours = (23 + 1) % 24 ∧
    (Clock.decrease_hours ⟨0, 5⟩).hours = (0 + 23) % 24 := by
  exact ⟨(Clock.c2_hour_ops_mod_arith ⟨23, 0⟩ (by decide)).1,
         (Clock.c2_hour_ops_mod_arith ⟨0, 5⟩ (by decide)).2⟩

/-- C3: on the legal states, each operation composed with its paired
operation is the identity (including carry/borrow across the hour
boundary), and hence each of the four operations is a bijection of the
legal-state set onto itself. -/
theorem Clock.c3_ops_are_inverse_bijections (t : Clock.Time)
    (h : Clock.Legal t) :
    Clock.decrease_hours (Clock.increase_hours t) = t ∧
    Clock.increase_hours (Clock.decrease_hours t) = t ∧
    Clock.decrease_minutes (Clock.increase_minutes t) = t ∧
    Clock.increase_minutes (Clock.decrease_minutes t) = t ∧
    Set.BijOn Clock.increase_hours Clock.LegalSet Clock.LegalSet ∧
    Set.BijOn Clock.decrease_hours Clock.LegalSet Clock.LegalSet ∧
    Set.BijOn Clock.increase_minutes Clock.LegalSet Clock.LegalSet ∧
    Set.BijOn Clock.decrease_minutes Clock.LegalSet Clock.LegalSet :=
  ⟨Clock.decrease_increase_hours t h, Clock.increase_decrease_hours t h,
   Clock.decrease_increase_minutes t h, Clock.increase_decrease_minutes t h,
   Clock.bijOn_increase_hours, Clock.bijOn_decrease_hours,
   Clock.bijOn_increase_minutes, Clock.bijOn_decrease_minutes⟩

/-- Witness for C3 at a state where both carry and borrow fire:
Time(23,59) round-trips under both minute pairs and both hour pairs. -/
theorem Clock.c3_ops_are_inverse_bijections_witness :
    Clock.decrease_hours (Clock.increase_hours ⟨23, 59⟩) = ⟨23, 59⟩ ∧
    Clock.increase_hours (Clock.decrease_hours ⟨23, 59⟩) = ⟨23, 59⟩ ∧
    Clock.decrease_minutes (Clock.increase_minutes ⟨23, 59⟩) = ⟨23, 59⟩ ∧
    Clock.increase_minutes (Clock.decrease_minutes ⟨23, 59⟩) = ⟨23, 59⟩ := by
  have h := Clock.c3_ops_are_inverse_bijections ⟨23, 59⟩ (by decide)
  exact ⟨h.1, h.2.1, h.2.2.1, h.2.2.2.1⟩

/-- C4: each of the four operations preserves the invariant
0 ≤ hours ≤ 23 ∧ 0 ≤ minutes ≤ 59: the state machine is closed over
the legal states. -/
theorem Clock.c4_ops_preserve_invariant (t : Clock.Time)
    (h : Clock.Legal t) :
    Clock.Legal (Clock.increase_hours t) ∧
    Clock.Legal (Clock.decrease_hours t) ∧
    Clock.Legal (Clock.increase_minutes t) ∧
    Clock.Legal (Clock.decrease_minutes t) :=
  ⟨Clock.legal_increase_hours t h, Clock.legal_decrease_hours t h,
   Clock.legal_increase_minutes t h, Clock.legal_decrease_minutes t h⟩

/-- Witness for C4 at the wrap-around corner Time(0,0). -/
theorem Clock.c4_ops_preserve_invariant_witness :
    Clock.Legal (Clock.increase_hours ⟨0, 0⟩) ∧
    Clock.Legal (Clock.decrease_hours ⟨0, 0⟩) ∧
    Clock.Legal (Clock.increase_minutes ⟨0, 0⟩) ∧
    Clock.Legal (Clock.decrease_minutes ⟨0, 0⟩) :=
  Clock.c4_ops_preserve_invariant ⟨0, 0⟩ (by decide)

/-- C9: for every `Time` (no invariant needed), the hour operations never
touch the minutes field, and the minute operations leave the hours field
unchanged except in the single wrap case (minutes = 59 for increment,
minutes = 0 for decrement). -/
theorem Clock.c9_frame_conditions (t : Clock.Time) :
    (Clock.increase_hours t).minutes = t.minutes ∧
    (Clock.decrease_hours t).minutes = t.minutes ∧
    (t.minutes ≠ 59 → (Clock.increase_minutes t).hours = t.hours) ∧
    (t.minutes ≠ 0 → (Clock.decrease_minutes t).hours = t.hours) := by
  refine ⟨?_, ?_, ?_, ?_⟩
  · unfold Clock.increase_hours
    split <;> rfl
  · unfold Clock.decrease_hours
    split <;> rfl
  · intro hm
    unfold Clock.increase_minutes
    simp [hm]
  · intro hm
    unfold Clock.decrease_minutes
    simp [hm]

/-- Witness for C9 at Time(12,30), discharging both non-wrap hypotheses. -/
theorem Clock.c9_frame_conditions_witness :
    (Clock.increase_hours ⟨12, 30⟩).minutes = 30 ∧
    (Clock.decrease_hours ⟨12, 30⟩).minutes = 30 ∧
    (Clock.increase_minutes ⟨12, 30⟩).hours = 12 ∧
    (Clock.decrease_minutes ⟨12, 30⟩).hours = 12 := by
  have h := Clock.c9_frame_conditions ⟨12, 30⟩
  exact ⟨h.1, h.2.1, h.2.2.1 (by decide), h.2.2.2 (by decide)⟩

/-- C10: on legal states none of the four mutators overflows or underflows
a u8: the checked variants (whose unguarded `+ 1` / `- 1` are checked u8
arithmetic returning `none` on wrap) succeed and agree with the unchecked
operations, so no operation panics. -/
theorem Clock.c10_no_u8_overflow (t : Clock.Time) (h : Clock.Legal t) :
    Clock.increase_hours_checked t = some (Clock.increase_hours t) ∧
    Clock.decrease_hours_checked t = some (Clock.decrease_hours t) ∧
    Clock.increase_minutes_checked t = some (Clock.increase_minutes t) ∧
    Clock.decrease_minutes_checked t = some (Clock.decrease_minutes t) := by
  obtain ⟨hh, hm⟩ := h
  refine ⟨?_, ?_, ?_, ?_⟩
  · unfold Clock.increase_hours_checked Clock.increase_hours Clock.u8_checked_add
    split
    · rfl
    · rw [if_pos (by omega)]
      rfl
  · unfold Clock.decrease_hours_checked Clock.decrease_hours Clock.u8_checked_sub
    split
    · rfl
    · rw [if_pos (by omega)]
      rfl
  · unfold Clock.increase_minutes_checked Clock.increase_minutes
      Clock.increase_hours_checked Clock.increase_hours Clock.u8_checked_add
    split
    · split
      · rfl
      · rw [if_pos (show (Clock.Time.mk t.hours 0).hours + 1 ≤ 255 by
          simp only [Clock.hours_mk]; omega)]
        rfl
    · rw [if_pos (by omega)]
      rfl
  · unfold Clock.decrease_minutes_checked Clock.decrease_minutes
      Clock.decrease_hours_checked Clock.decrease_hours Clock.u8_checked_sub
    split
    · split
      · rfl
      · rename_i hz hnz
        rw [if_pos (show 1 ≤ (Clock.Time.mk t.hours 59).hours by
          simp only [Clock.hours_mk] at hnz ⊢; omega)]
        rfl
    · rw [if_pos (by omega)]
      rfl

/-- Witness for C10 at the corner Time(23,59), where both wrap branches
fire without touching the checked arithmetic. -/
theorem Clock.c10_no_u8_overflow_witness :
    Clock.increase_hours_checked ⟨23, 59⟩ = some (Clock.increase_hours ⟨23, 59⟩) ∧
    Clock.decrease_hours_checked ⟨23, 59⟩ = some (Clock.decrease_hours ⟨23, 59⟩) ∧
    Clock.increase_minutes_checked ⟨23, 59⟩ = some (Clock.increase_minutes ⟨23, 59⟩) ∧
    Clock.decrease_minutes_checked ⟨23, 59⟩ = some (Clock.decrease_minutes ⟨23, 59⟩) :=
  Clock.c10_no_u8_overflow ⟨23, 59⟩ (by decide)

/-- C7: partial-input validation succeeds exactly for the empty string or
a string parsing as an unsigned integer at most the bound (24 for the
hours box, 60 for the minutes box); every other outcome is a failure
carrying the fixed message "Input must be a number between 0 and 24.". -/
theorem Clock.c7_partial_input_validation (s : String) (limit : Nat) :
    (Clock.validate_partial_input s limit = Clock.Validation.success ↔
      s = "" ∨ ∃ n, Clock.u8FromStr s = some n ∧ n ≤ limit) ∧
    (Clock.validate_partial_input s limit ≠ Clock.Validation.success →
      Clock.validate_partial_input s limit =
        Clock.Validation.failure Clock.inputValidationMessage) ∧
    Clock.hoursFormatterValidate s = Clock.validate_partial_input s 24 ∧
    Clock.minutesFormatterValidate s = Clock.validate_partial_input s 60 := by
  refine ⟨?_, ?_, rfl, rfl⟩
  · unfold Clock.validate_partial_input
    by_cases he : s = ""
    · subst he
      rw [if_pos (by decide)]
      simp
    · rw [if_neg (by simpa [String.isEmpty_iff] using he)]
      cases hu : Clock.u8FromStr s with
      | none => simp [he, hu]
      | some n =>
          by_cases hle : n ≤ limit
          · simp [he, hu, hle]
          · simp [he, hu, hle]
  · unfold Clock.validate_partial_input
    by_cases he : s = ""
    · subst he
      rw [if_pos (by decide)]
      intro h
      exact absurd rfl h
    · rw [if_neg (by simpa [String.isEmpty_iff] using he)]
      cases hu : Clock.u8FromStr s with
      | none => simp
      | some n =>
          by_cases hle : n ≤ limit
          · simp [hle]
          · simp [hle]

/-- Witness for C7 at the spec's concrete cases: "" succeeds, "24" with
bound 24 succeeds, "25" with bound 24 fails with the fixed message, and
"ab" fails with the fixed message. -/
theorem Clock.c7_partial_input_validation_witness :
    Clock.validate_partial_input "" 24 = Clock.Validation.success ∧
    Clock.validate_partial_input "24" 24 = Clock.Validation.success ∧
    Clock.validate_partial_input "25" 24 =
      Clock.Validation.failure Clock.inputValidationMessage ∧
    Clock.validate_partial_input "ab" 60 =
      Clock.Validation.failure Clock.inputValidationMessage := by
  refine ⟨?_, ?_, ?_, ?_⟩
  · exact (Clock.c7_partial_input_validation "" 24).1.mpr (Or.inl rfl)
  · exact (Clock.c7_partial_input_validation "24" 24).1.mpr
      (Or.inr ⟨24, by decide, by decide⟩)
  · refine (Clock.c7_partial_input_validation "25" 24).2.1 ?_
    intro hs
    rcases (Clock.c7_partial_input_validation "25" 24).1.mp hs with h1 | ⟨n, hn, hle⟩
    · exact absurd h1 (by decide)
    · rw [show Clock.u8FromStr "25" = some 25 from by decide] at hn
      cases hn
      omega
  · refine (Clock.c7_partial_input_validation "ab" 60).2.1 ?_
    intro hs
    rcases (Clock.c7_partial_input_validation "ab" 60).1.mp hs with h1 | ⟨n, hn, hle⟩
    · exact absurd h1 (by decide)
    · rw [show Clock.u8FromStr "ab" = none from by decide] at hn
      cases hn

/-- C8: the final parse of a committed string returns 0 for the empty
string, the parsed unsigned integer on success, and otherwise an error
carrying the same fixed message; the parse is a pure function of the
string, and on an error the (spec-modelled) commit step leaves the stored
field unchanged. -/
theorem Clock.c8_final_parse (s : String) (cur : Nat) :
    (s = "" → Clock.value s = Except.ok 0) ∧
    (∀ n, s ≠ "" → Clock.u8FromStr s = some n → Clock.value s = Except.ok n) ∧
    (s ≠ "" → Clock.u8FromStr s = none →
      Clock.value s = Except.error Clock.inputValidationMessage) ∧
    (∀ e, Clock.value s = Except.error e → Clock.commitValue s cur = cur) := by
  refine ⟨?_, ?_, ?_, ?_⟩
  · intro he
    subst he
    rfl
  · intro n he hu
    unfold Clock.value
    rw [if_neg (by simpa [String.isEmpty_iff] using he), hu]
  · intro he hu
    unfold Clock.value
    rw [if_neg (by simpa [String.isEmpty_iff] using he), hu]
  · intro e herr
    unfold Clock.commitValue
    rw [herr]

/-- Witness for C8: "" parses to 0, "24" parses to 24, "ab" errors with
the fixed message, and committing "ab" over a stored value 7 leaves 7. -/
theorem Clock.c8_final_parse_witness :
    Clock.value "" = Except.ok 0 ∧
    Clock.value "24" = Except.ok 24 ∧
    Clock.value "ab" = Except.error Clock.inputValidationMessage ∧
    Clock.commitValue "ab" 7 = 7 := by
  have h3 := (Clock.c8_final_parse "ab" 7).2.2.1 (by decide) (by decide)
  exact ⟨(Clock.c8_final_parse "" 7).1 rfl,
         (Clock.c8_final_parse "24" 7).2.1 24 (by decide) (by decide),
         h3,
         (Clock.c8_final_parse "ab" 7).2.2.2 Clock.inputValidationMessage h3⟩

/-- C5: the painter's hand directions realize exactly the spec's angles:
the minute hand points at clockwise angle `minutes/60 * 2π` from
12 o'clock and the hour hand at `((hours mod 12) + minutes/60)/12 * 2π`
(advancing continuously with minutes); in particular Time(0,0) gives both
angles 0, Time(3,0) gives hour angle π/2, and Time(6,30) gives hour angle
(6.5/12)·2π. -/
theorem Clock.c5_hand_angles (t : Clock.Time) :
    Clock.minuteHandDir t = Clock.clockwiseFrom12Dir (Clock.minuteHandAngleSpec t) ∧
    Clock.hourHandDir t = Clock.clockwiseFrom12Dir (Clock.hourHandAngleSpec t) ∧
    Clock.minuteHandAngleSpec ⟨0, 0⟩ = 0 ∧
    Clock.hourHandAngleSpec ⟨0, 0⟩ = 0 ∧
    Clock.hourHandAngleSpec ⟨3, 0⟩ = Real.pi / 2 ∧
    Clock.hourHandAngleSpec ⟨6, 30⟩ = 6.5 / 12 * (2 * Real.pi) := by
  refine ⟨?_, ?_, ?_, ?_, ?_, ?_⟩
  · unfold Clock.minuteHandDir Clock.clockwiseFrom12Dir Clock.minuteHandArg
      Clock.minuteHandAngleSpec
    rw [show (t.minutes : ℝ) / 60 * 2 * Real.pi - Real.pi / 2
          = (t.minutes : ℝ) / 60 * (2 * Real.pi) - Real.pi / 2 from by ring,
        Real.cos_sub, Real.sin_sub, Real.cos_pi_div_two, Real.sin_pi_div_two]
    norm_num
  · unfold Clock.hourHandDir Clock.clockwiseFrom12Dir Clock.hourHandArg
      Clock.hourHandAngleSpec
    rw [show (((t.hours % 12 : ℕ) : ℝ) + (t.minutes : ℝ) / 60) / 12 * 2 * Real.pi - Real.pi / 2
          = (((t.hours % 12 : ℕ) : ℝ) + (t.minutes : ℝ) / 60) / 12 * (2 * Real.pi)
            - Real.pi / 2 from by ring,
        Real.cos_sub, Real.sin_sub, Real.cos_pi_div_two, Real.sin_pi_div_two]
    norm_num
  · unfold Clock.minuteHandAngleSpec
    norm_num [Clock.minutes_mk]
  · unfold Clock.hourHandAngleSpec
    norm_num [Clock.hours_mk, Clock.minutes_mk]
  · unfold Clock.hourHandAngleSpec
    rw [Clock.hours_mk, Clock.minutes_mk]
    norm_num
    ring
  · unfold Clock.hourHandAngleSpec
    rw [Clock.hours_mk, Clock.minutes_mk]
    norm_num

/-- Counterexample to C6 as stated: at time 12:00, doubling the canvas
from 700×700 to 1400×1400 leaves the painter's first hour-tick start
point at (630, 350) instead of scaling it by 2 to (1260, 700) — the tick
positions are computed from the `WINDOW_SIZE` constant, not from the
canvas size. -/
theorem Clock.c6_counterexample_canvas_scaling :
    ¬ (Clock.majorTick Clock.WINDOW_SIZE (2 * 700) (2 * 700) ⟨12, 0⟩ 0 =
       (Clock.scale2 2 (Clock.majorTick Clock.WINDOW_SIZE 700 700 ⟨12, 0⟩ 0).1,
        Clock.scale2 2 (Clock.majorTick Clock.WINDOW_SIZE 700 700 ⟨12, 0⟩ 0).2)) := by
  rw [Clock.majorTick_zero, Clock.majorTick_zero]
  unfold Clock.WINDOW_SIZE Clock.scale2
  norm_num

/-- C6 (amended): the face circle (center and radius) and the colored
segments' shared center scale with the canvas size; every other drawn
position (the segment radii, tick endpoints, hand strokes and label ring
points) ignores the canvas and is a fixed fraction of the `WINDOW_SIZE`
constant — invariant under any change of canvas, and scaling linearly
when `WINDOW_SIZE` itself is scaled (segment angles are size-free). -/
theorem Clock.c6_amended_scaling (k ws cw ch cw2 ch2 : ℝ) (hk : 0 ≤ k)
    (t : Clock.Time) (n : ℕ) :
    Clock.faceCircle (k * cw) (k * ch) =
      (Clock.scale2 k (Clock.faceCircle cw ch).1, k * (Clock.faceCircle cw ch).2) ∧
    (Clock.circleSegment ws (k * cw) (k * ch) t n).1 =
      Clock.scale2 k (Clock.circleSegment ws cw ch t n).1 ∧
    (Clock.circleSegment ws cw ch t n).2.1 = (Clock.circleSegment ws cw2 ch2 t n).2.1 ∧
    (Clock.circleSegment (k * ws) cw ch t n).2.1 =
      Clock.scale2 k (Clock.circleSegment ws cw ch t n).2.1 ∧
    (Clock.circleSegment (k * ws) (k * cw) (k * ch) t n).2.2 =
      (Clock.circleSegment ws cw ch t n).2.2 ∧
    Clock.majorTick ws cw ch t n = Clock.majorTick ws cw2 ch2 t n ∧
    Clock.majorTick (k * ws) cw ch t n =
      (Clock.scale2 k (Clock.majorTick ws cw ch t n).1,
       Clock.scale2 k (Clock.majorTick ws cw ch t n).2) ∧
    Clock.minorTick ws cw ch t n = Clock.minorTick ws cw2 ch2 t n ∧
    Clock.minorTick (k * ws) cw ch t n =
      (Clock.scale2 k (Clock.minorTick ws cw ch t n).1,
       Clock.scale2 k (Clock.minorTick ws cw ch t n).2) ∧
    Clock.minuteHand ws cw ch t = Clock.minuteHand ws cw2 ch2 t ∧
    Clock.minuteHand (k * ws) cw ch t =
      (Clock.scale2 k (Clock.minuteHand ws cw ch t).1,
       Clock.scale2 k (Clock.minuteHand ws cw ch t).2) ∧
    Clock.hourHand ws cw ch t = Clock.hourHand ws cw2 ch2 t ∧
    Clock.hourHand (k * ws) cw ch t =
      (Clock.scale2 k (Clock.hourHand ws cw ch t).1,
       Clock.scale2 k (Clock.hourHand ws cw ch t).2) ∧
    Clock.labelRingPoint ws cw ch n = Clock.labelRingPoint ws cw2 ch2 n ∧
    Clock.labelRingPoint (k * ws) cw ch n =
      Clock.scale2 k (Clock.labelRingPoint ws cw ch n) := by
  refine ⟨?_, ?_, rfl, ?_, rfl, rfl, ?_, rfl, ?_, rfl, ?_, rfl, ?_, rfl, ?_⟩
  · unfold Clock.faceCircle Clock.scale2
    simp only [Prod.mk.injEq]
    refine ⟨⟨by ring, by ring⟩, ?_⟩
    rw [show k * cw / 2 = k * (cw / 2) from by ring,
        show k * ch / 2 = k * (ch / 2) from by ring]
    exact (mul_min_of_nonneg _ _ hk).symm
  · unfold Clock.circleSegment Clock.scale2
    simp only [Prod.mk.injEq]
    exact ⟨by ring, by ring⟩
  · unfold Clock.circleSegment Clock.scale2
    simp only [Prod.mk.injEq]
    exact ⟨by ring, by ring⟩
  · unfold Clock.majorTick Clock.scale2
    simp only [Prod.mk.injEq]
    refine ⟨⟨by ring, by ring⟩, by ring, by ring⟩
  · unfold Clock.minorTick Clock.scale2
    simp only [Prod.mk.injEq]
    refine ⟨⟨by ring, by ring⟩, by ring, by ring⟩
  · unfold Clock.minuteHand Clock.scale2
    simp only [Prod.mk.injEq]
    refine ⟨⟨by ring, by ring⟩, by ring, by ring⟩
  · unfold Clock.hourHand Clock.scale2
    simp only [Prod.mk.injEq]
    refine ⟨⟨by ring, by ring⟩, by ring, by ring⟩
  · unfold Clock.labelRingPoint Clock.scale2
    simp only [Prod.mk.injEq]
    exact ⟨by ring, by ring⟩

/-- Witness for the amended C6 at k = 2, WINDOW_SIZE = 1400, canvases
700×700 and 350×210, time 12:00, tick index 0. -/
theorem Clock.c6_amended_scaling_witness :
    Clock.faceCircle (2 * 700) (2 * 700) =
      (Clock.scale2 2 (Clock.faceCircle 700 700).1, 2 * (Clock.faceCircle 700 700).2) ∧
    (Clock.circleSegment 1400 (2 * 700) (2 * 700) ⟨12, 0⟩ 0).1 =
      Clock.scale2 2 (Clock.circleSegment 1400 700 700 ⟨12, 0⟩ 0).1 ∧
    (Clock.circleSegment 1400 700 700 ⟨12, 0⟩ 0).2.1 =
      (Clock.circleSegment 1400 350 210 ⟨12, 0⟩ 0).2.1 ∧
    (Clock.circleSegment (2 * 1400) 700 700 ⟨12, 0⟩ 0).2.1 =
      Clock.scale2 2 (Clock.circleSegment 1400 700 700 ⟨12, 0⟩ 0).2.1 ∧
    (Clock.circleSegment (2 * 1400) (2 * 700) (2 * 700) ⟨12, 0⟩ 0).2.2 =
      (Clock.circleSegment 1400 700 700 ⟨12, 0⟩ 0).2.2 ∧
    Clock.majorTick 1400 700 700 ⟨12, 0⟩ 0 = Clock.majorTick 1400 350 210 ⟨12, 0⟩ 0 ∧
    Clock.majorTick (2 * 1400) 700 700 ⟨12, 0⟩ 0 =
      (Clock.scale2 2 (Clock.majorTick 1400 700 700 ⟨12, 0⟩ 0).1,
       Clock.scale2 2 (Clock.majorTick 1400 700 700 ⟨12, 0⟩ 0).2) ∧
    Clock.minorTick 1400 700 700 ⟨12, 0⟩ 0 = Clock.minorTick 1400 350 210 ⟨12, 0⟩ 0 ∧
    Clock.minorTick (2 * 1400) 700 700 ⟨12, 0⟩ 0 =
      (Clock.scale2 2 (Clock.minorTick 1400 700 700 ⟨12, 0⟩ 0).1,
       Clock.scale2 2 (Clock.minorTick 1400 700 700 ⟨12, 0⟩ 0).2) ∧
    Clock.minuteHand 1400 700 700 ⟨12, 0⟩ = Clock.minuteHand 1400 350 210 ⟨12, 0⟩ ∧
    Clock.minuteHand (2 * 1400) 700 700 ⟨12, 0⟩ =
      (Clock.scale2 2 (Clock.minuteHand 1400 700 700 ⟨12, 0⟩).1,
       Clock.scale2 2 (Clock.minuteHand 1400 700 700 ⟨12, 0⟩).2) ∧
    Clock.hourHand 1400 700 700 ⟨12, 0⟩ = Clock.hourHand 1400 350 210 ⟨12, 0⟩ ∧
    Clock.hourHand (2 * 1400) 700 700 ⟨12, 0⟩ =
      (Clock.scale2 2 (Clock.hourHand 1400 700 700 ⟨12, 0⟩).1,
       Clock.scale2 2 (Clock.hourHand 1400 700 700 ⟨12, 0⟩).2) ∧
    Clock.labelRingPoint 1400 700 700 0 = Clock.labelRingPoint 1400 350 210 0 ∧
    Clock.labelRingPoint (2 * 1400) 700 700 0 =
      Clock.scale2 2 (Clock.labelRingPoint 1400 700 700 0) :=
  Clock.c6_amended_scaling 2 1400 700 700 350 210 (by norm_num) ⟨12, 0⟩ 0
